import Mathlib

/-
Verification of the draft/offline-resilience subsystem of the island-mapping-tool
repository (src/app.js, with the Apps Script backend in src/unnamed/part_001 and
near-duplicate app variants in src/unnamed/part_002 and src/unnamed/part_003).

The JavaScript is shallowly embedded: JS objects become association lists over a
small JSON value type, localStorage becomes explicit state records, the ambient
sources of nondeterminism (Math.random driving generateUUID, the Date clock) are
threaded as explicit supplies, and thrown-and-caught exceptions become the
corresponding control-flow branches.
-/

set_option maxRecDepth 10000

namespace IslandMapping

/-- JSON-like values, the type of JS object fields exchanged by the app.
Numbers are modelled exactly as rationals: the claim-relevant code only copies
them, never does arithmetic on them, so no floating-point rounding can arise. -/
inductive JVal where
  | str : String → JVal
  | num : Rat → JVal
  | null : JVal
  | arr : List JVal → JVal
  | obj : List (String × JVal) → JVal

/-- First-match lookup in a JS-object association list (keys are unique in all
objects the app builds, so first-match agrees with JS property lookup). -/
def alookup {α : Type} (k : String) : List (String × α) → Option α
  | [] => none
  | (k', v) :: rest => if k' == k then some v else alookup k rest

/-- JS property assignment / later-spread: replace the value in place if the key
exists (JS keeps the original key position), otherwise append the key. -/
def aset {α : Type} (k : String) (v : α) : List (String × α) → List (String × α)
  | [] => [(k, v)]
  | (k', v') :: rest => if k' == k then (k, v) :: rest else (k', v') :: aset k v rest

/-- localStorage.removeItem on a keyed slot: drop the key. -/
def aerase {α : Type} (k : String) : List (String × α) → List (String × α)
  | [] => []
  | (k', v') :: rest => if k' == k then aerase k rest else (k', v') :: aerase k rest

/-- A File object held in formData.photos: name, size, MIME type, and the
data URL that FileReader.readAsDataURL would produce for it. -/
structure PhotoFile where
  name : String
  size : Nat
  ptype : String
  dataUrl : String
  deriving Repr, DecidableEq

/-- A value sitting in the photos array of the in-memory form state. A live
File object survives only in memory; JSON.stringify serializes a File as the
empty object, so a draft round-trip leaves an empty husk in its place. -/
inductive PhotoVal where
  | file : PhotoFile → PhotoVal
  | husk : PhotoVal
  deriving Repr, DecidableEq

/-- In-memory form state (the this.formData object of app.js). The first eight
fields are the keys the constructor and clearDraft install; the remaining
Option-valued fields are the dynamic per-subcategory fields that UI handlers
assign directly onto formData (none models the key being absent). The
timestampKey field models the stray timestamp key that loadDraft's object
spread copies from a draft into formData. -/
structure FormState where
  lat : Option Rat
  lon : Option Rat
  gps_accuracy_m : Option Rat
  category : String
  subcategory : String
  tags : List String
  notes : String
  photos : List PhotoVal
  light_working : Option String := none
  price_item : Option String := none
  price_mvr : Option String := none
  in_stock : Option String := none
  med_item : Option String := none
  med_availability : Option String := none
  down_mbps : Option String := none
  up_mbps : Option String := none
  ping_ms : Option String := none
  timestampKey : Option Nat := none
  deriving Repr, DecidableEq

/-- The object clearDraft and startNewEntry assign to this.formData: exactly
the eight base keys, so every dynamic field key disappears. -/
def defaultFormData : FormState :=
  { lat := none, lon := none, gps_accuracy_m := none, category := "",
    subcategory := "", tags := [], notes := "", photos := [] }

/-- The configuration fields prepareSubmissionData reads from config.json. -/
structure Config where
  app_version : String
  language : String
  deriving Repr, DecidableEq

/-- JS truthiness of an optional string-valued field (undefined and the empty
string are falsy). -/
def optStrTruthy : Option String → Bool
  | none => false
  | some s => s != ""

/-- JS truthiness of an optional numeric field (undefined, null and 0 are
falsy). -/
def optNumTruthy : Option Rat → Bool
  | none => false
  | some q => q != 0

/-- validateForm from app.js: location (map mode needs truthy lat and lon,
island mode needs a selected island), category, subcategory, then the
per-subcategory required dynamic fields. -/
def validateForm (entryMode islandSelectValue : String) (fd : FormState) : Bool :=
  (if entryMode == "map" then
    optNumTruthy fd.lat && optNumTruthy fd.lon
  else
    islandSelectValue != "") &&
  fd.category != "" &&
  fd.subcategory != "" &&
  (fd.subcategory != "price_item" ||
    (optStrTruthy fd.price_item && optStrTruthy fd.price_mvr && optStrTruthy fd.in_stock)) &&
  (fd.subcategory != "pharmacy_stock" ||
    (optStrTruthy fd.med_item && optStrTruthy fd.med_availability)) &&
  (fd.subcategory != "internet_speed" ||
    (optStrTruthy fd.down_mbps && optStrTruthy fd.up_mbps && optStrTruthy fd.ping_ms)) &&
  (fd.subcategory != "streetlight" || optStrTruthy fd.light_working)

/-- One row of the rapid-entry price table as read from the DOM (already
trimmed, as the source trims before use). -/
structure PriceRow where
  itemName : String
  price : String
  stock : String
  deriving Repr, DecidableEq

/-- One row of the rapid-entry pharmacy table as read from the DOM. -/
structure PharmacyRow where
  medName : String
  availability : String
  deriving Repr, DecidableEq

/-- One label of the accessibility checklist as read from the DOM. -/
structure ChecklistItem where
  labelText : String
  checked : Bool
  deriving Repr, DecidableEq

/-- Snapshot of the DOM pieces the encoder helpers query; none models the
corresponding container not being rendered (querySelector returning null). -/
structure DomSnapshot where
  priceRows : Option (List PriceRow) := none
  pharmacyRows : Option (List PharmacyRow) := none
  accessibilityChecklist : Option (List ChecklistItem) := none
  deriving Repr, DecidableEq

/-- getPriceBasketData from app.js: rows with a price or a stock value become
item:price:stock tuples (missing half replaced by N/A) joined by a
semicolon-space separator. -/
def getPriceBasketData (table : Option (List PriceRow)) : String :=
  match table with
  | none => ""
  | some rows =>
    let items := rows.filterMap fun r =>
      if r.price != "" || r.stock != "" then
        some (r.itemName ++ ":" ++ (if r.price != "" then r.price else "N/A")
          ++ ":" ++ (if r.stock != "" then r.stock else "N/A"))
      else none
    String.intercalate "; " items

/-- getPharmacyStockData from app.js: rows with an availability value become
med:availability tuples joined by a semicolon-space separator. -/
def getPharmacyStockData (table : Option (List PharmacyRow)) : String :=
  match table with
  | none => ""
  | some rows =>
    let items := rows.filterMap fun r =>
      if r.availability != "" then some (r.medName ++ ":" ++ r.availability) else none
    String.intercalate "; " items

/-- getAccessibilityData from app.js: every checklist label becomes an
item: YES/NO pair joined by a semicolon-space separator. -/
def getAccessibilityData (container : Option (List ChecklistItem)) : String :=
  match container with
  | none => ""
  | some items =>
    String.intercalate "; "
      (items.map fun it => it.labelText ++ ": " ++ (if it.checked then "YES" else "NO"))

/-- Wrap an integer into the signed 32-bit range, as JS ToInt32 does. -/
def toInt32 (n : Int) : Int :=
  (n + 2147483648) % 4294967296 - 2147483648

/-- One step of the generateIPHash loop: JS computes
((hash shifted left by 5) - hash) + charCode and then truncates with
hash AND hash; both the shift and the AND apply ToInt32. -/
def hashStep (hash : Int) (c : Char) : Int :=
  toInt32 (toInt32 (hash * 32) - hash + Int.ofNat c.toNat)

/-- generateIPHash from app.js, applied to the string it hashes (the user agent
concatenated with the current epoch milliseconds): a 32-bit rolling hash,
rendered as the hex digits of its absolute value. -/
def generateIPHash (data : String) : String :=
  String.mk (Nat.toDigits 16 (data.toList.foldl hashStep 0).natAbs)

/-- Date.prototype.toISOString, modelled as an injective rendering of the
epoch-millisecond instant; the claims depend only on equality of instants,
never on the calendar text. -/
def toISOString (ms : Nat) : String :=
  "ISO:" ++ toString ms

/-- A nullable number rendered as a JSON value (null maps to JSON null). -/
def jOfNum : Option Rat → JVal
  | none => JVal.null
  | some q => JVal.num q

/-- prepareSubmissionData from app.js. Ambient inputs are explicit: uuid is the
identifier generateUUID draws from Math.random, nowMs the new Date() reading,
hashNowMs the Date.now() reading inside generateIPHash. The notes field uses
notes or the empty string, which for a string-valued field is the field
itself. The record is the exact thirteen-key object literal of the source:
no dynamic per-subcategory field is copied into it. -/
def prepareSubmissionData (cfg : Config) (dom : DomSnapshot) (fd : FormState)
    (uuid : String) (nowMs : Nat) (userAgent : String) (hashNowMs : Nat) :
    List (String × JVal) :=
  let subcategoryData :=
    if fd.subcategory == "accessibility_audit" then getAccessibilityData dom.accessibilityChecklist
    else if fd.subcategory == "price_item" then getPriceBasketData dom.priceRows
    else if fd.subcategory == "pharmacy_stock" then getPharmacyStockData dom.pharmacyRows
    else fd.subcategory
  [ ("submission_id", JVal.str uuid),
    ("submitted_at_iso", JVal.str (toISOString nowMs)),
    ("app_version", JVal.str cfg.app_version),
    ("language", JVal.str cfg.language),
    ("lat", jOfNum fd.lat),
    ("lon", jOfNum fd.lon),
    ("gps_accuracy_m", jOfNum fd.gps_accuracy_m),
    ("category", JVal.str fd.category),
    ("subcategory", JVal.str subcategoryData),
    ("tags", JVal.str (String.intercalate ";" fd.tags)),
    ("notes", JVal.str fd.notes),
    ("consent_confirmed", JVal.str "yes"),
    ("ip_hash", JVal.str (generateIPHash (userAgent ++ toString hashNowMs))) ]

/-- JS truthiness of a JSON value, as the backend's data.field-or-empty
defaulting sees it. -/
def jTruthy : JVal → Bool
  | JVal.str s => s != ""
  | JVal.num q => q != 0
  | JVal.null => false
  | JVal.arr _ => true
  | JVal.obj _ => true

/-- The backend's field-or-empty-string defaulting: a missing or falsy field
becomes the empty string. -/
def jOrEmpty (v : Option JVal) : JVal :=
  match v with
  | some v => if jTruthy v then v else JVal.str ""
  | none => JVal.str ""

/-- prepareRowData from the Apps Script backend (src/unnamed/part_001): the
incoming submission object flattened into the 55 column-positional sheet
cells, each missing or falsy field emitted as the empty string. -/
def prepareRowData (data : List (String × JVal)) : List JVal :=
  [ jOrEmpty (alookup "submission_id" data),
    jOrEmpty (alookup "submitted_at_iso" data),
    jOrEmpty (alookup "app_version" data),
    jOrEmpty (alookup "language" data),
    jOrEmpty (alookup "lat" data),
    jOrEmpty (alookup "lon" data),
    jOrEmpty (alookup "gps_accuracy_m" data),
    jOrEmpty (alookup "category" data),
    jOrEmpty (alookup "subcategory" data),
    jOrEmpty (alookup "tags" data),
    jOrEmpty (alookup "title_or_name" data),
    jOrEmpty (alookup "notes" data),
    jOrEmpty (alookup "photo_1_url" data),
    jOrEmpty (alookup "photo_2_url" data),
    jOrEmpty (alookup "photo_3_url" data),
    jOrEmpty (alookup "photo_4_url" data),
    jOrEmpty (alookup "photo_5_url" data),
    jOrEmpty (alookup "contact_name" data),
    jOrEmpty (alookup "contact_phone" data),
    jOrEmpty (alookup "contact_other" data),
    jOrEmpty (alookup "price_item" data),
    jOrEmpty (alookup "price_mvr" data),
    jOrEmpty (alookup "in_stock" data),
    jOrEmpty (alookup "med_item" data),
    jOrEmpty (alookup "med_availability" data),
    jOrEmpty (alookup "med_price_mvr" data),
    jOrEmpty (alookup "insulin_cold_chain" data),
    jOrEmpty (alookup "light_working" data),
    jOrEmpty (alookup "lux_ground" data),
    jOrEmpty (alookup "hazard_type" data),
    jOrEmpty (alookup "access_features" data),
    jOrEmpty (alookup "isp" data),
    jOrEmpty (alookup "down_mbps" data),
    jOrEmpty (alookup "up_mbps" data),
    jOrEmpty (alookup "ping_ms" data),
    jOrEmpty (alookup "data_price_mvr_gb" data),
    jOrEmpty (alookup "sample_type" data),
    jOrEmpty (alookup "ph" data),
    jOrEmpty (alookup "tds_ppm" data),
    jOrEmpty (alookup "smell" data),
    jOrEmpty (alookup "color" data),
    jOrEmpty (alookup "pm25" data),
    jOrEmpty (alookup "pm10" data),
    jOrEmpty (alookup "noise_db" data),
    jOrEmpty (alookup "temp_c" data),
    jOrEmpty (alookup "rh" data),
    jOrEmpty (alookup "project_type" data),
    jOrEmpty (alookup "progress_status" data),
    jOrEmpty (alookup "contractor" data),
    jOrEmpty (alookup "mode" data),
    jOrEmpty (alookup "operator_name" data),
    jOrEmpty (alookup "days_of_week" data),
    jOrEmpty (alookup "submitter_nickname" data),
    jOrEmpty (alookup "consent_confirmed" data),
    jOrEmpty (alookup "ip_hash" data) ]

/-- FileReader.readAsDataURL, which resolves a File to its data URL. Reading a
husk (a File lost to a draft round-trip) has no defined result; the claims
never reach that case. -/
def fileToBase64 : PhotoVal → String
  | PhotoVal.file p => p.dataUrl
  | PhotoVal.husk => ""

/-- The MIME type extracted from a data URL by the source regex, which takes
the text between the first colon and the following semicolon of the part
before the first comma. -/
def dataUrlMime (dataUrl : String) : String :=
  ((((dataUrl.splitOn ",").headD "").splitOn ":").getD 1 "").splitOn ";" |>.headD ""

/-- The base64 part of a data URL: everything after the first comma. -/
def dataUrlBase64 (dataUrl : String) : String :=
  (dataUrl.splitOn ",").getD 1 ""

/-- The name a husk-free photo exposes; property access on a husk yields the
JS undefined, rendered as its interpolation text. -/
def photoName : PhotoVal → String
  | PhotoVal.file p => p.name
  | PhotoVal.husk => "undefined"

/-- The size field of a photo value. -/
def photoSize : PhotoVal → Nat
  | PhotoVal.file p => p.size
  | PhotoVal.husk => 0

/-- The MIME type field of a photo value. -/
def photoType : PhotoVal → String
  | PhotoVal.file p => p.ptype
  | PhotoVal.husk => "undefined"

/-- One stored fallback payload slot: either a string that parses back to the
stored JSON object, or a string JSON.parse rejects (garbage can only appear
through storage corruption; the app always writes well-formed JSON). -/
inductive PayloadSlot where
  | entry : List (String × JVal) → PayloadSlot
  | garbage : PayloadSlot

/-- The localStorage keys of the fallback queue: pendingIndex is the parsed
content of the mappingApp_pending_submissions slot (the empty list models an
absent slot, which the code defaults to an empty JSON array), and payloads
holds the out-of-line per-submission slots keyed by their full storage key. -/
structure QueueState where
  pendingIndex : List String := []
  payloads : List (String × PayloadSlot) := []

/-- The storage key tryFallbackStorage derives from a submission identifier. -/
def fallbackKeyOf (id : String) : String :=
  "mappingApp_fallback_" ++ id

/-- The submission_id property of a submission object, interpolated into the
storage key; a missing property interpolates as the JS undefined text. -/
def submissionIdOf (d : List (String × JVal)) : String :=
  match alookup "submission_id" d with
  | some (JVal.str s) => s
  | _ => "undefined"

/-- tryFallbackStorage from app.js: converts the photos to base64, writes the
full payload (submission object plus stored_at plus photo records) under the
derived key, then appends the identifier to the pending index. Storage is
modelled as reliable, so the function reports success; the payload write
precedes the index write exactly as in the source. -/
def tryFallbackStorage (photos : List PhotoVal) (submissionData : List (String × JVal))
    (storedAtMs : Nat) (q : QueueState) : QueueState × Bool :=
  let id := submissionIdOf submissionData
  let photosJ : JVal := JVal.arr (photos.map fun p => JVal.obj
    [("name", JVal.str (photoName p)),
     ("size", JVal.num (photoSize p : Nat)),
     ("type", JVal.str (photoType p)),
     ("data", JVal.str (fileToBase64 p))])
  let fallbackData := aset "photos" photosJ
    (aset "stored_at" (JVal.str (toISOString storedAtMs)) submissionData)
  let q1 : QueueState := { q with payloads := aset (fallbackKeyOf id) (PayloadSlot.entry fallbackData) q.payloads }
  let q2 : QueueState := { q1 with pendingIndex := q1.pendingIndex ++ [id] }
  (q2, true)

/-- The body of the retryPendingSubmissions loop. The first list argument is
the pending array parsed once at sweep start; the source iterates over it and,
on each confirmed success, stores that same start-of-sweep array filtered by
the one current identifier. A missing payload slot (getItem yields null, so
JSON.parse yields null, which is falsy) and a garbage slot (JSON.parse throws
into the per-entry catch) are both skipped. A submit returning false covers
both a non-ok HTTP response and a thrown fetch error, which the per-entry
catch also turns into moving on. -/
def sweepLoop (submit : List (String × JVal) → Bool) (pending : List String) :
    List String → QueueState → QueueState
  | [], q => q
  | id :: rest, q =>
    match alookup (fallbackKeyOf id) q.payloads with
    | none => sweepLoop submit pending rest q
    | some PayloadSlot.garbage => sweepLoop submit pending rest q
    | some (PayloadSlot.entry d) =>
      if submit d then
        sweepLoop submit pending rest
          { pendingIndex := pending.filter (fun i => i != id),
            payloads := aerase (fallbackKeyOf id) q.payloads }
      else
        sweepLoop submit pending rest q

/-- retryPendingSubmissions from app.js (the identical function also appears
in src/unnamed/part_003): parse the pending index once, return immediately if
it is empty, otherwise run the per-entry loop over that snapshot. -/
def retryPendingSubmissions (submit : List (String × JVal) → Bool) (q : QueueState) : QueueState :=
  let pending := q.pendingIndex
  if pending.isEmpty then q else sweepLoop submit pending pending q

/-- The body of an HTTP response as the submit path's response.json() call
sees it: either a JSON document whose success flag has the given truthiness
(a JSON body without the flag behaves as a falsy flag), or a body that is not
JSON, on which response.json() throws. -/
inductive RespBody where
  | jsonBody : Bool → Option String → RespBody
  | nonJson : RespBody
  deriving Repr, DecidableEq

/-- A fetch response: its ok flag (status in the 2xx range) and its body. -/
structure HttpResponse where
  ok : Bool
  body : RespBody
  deriving Repr, DecidableEq

/-- A parsed draft object, the JSON image of a formData spread plus the save
timestamp. The outer Option on each field records whether the key is present
in the stored JSON at all (drafts written by older app versions may lack
keys); for the dynamic fields the single Option already plays that role, as
it does on FormState. JSON.stringify reduces each File in the photos array to
an empty husk. -/
structure DraftObj where
  lat : Option (Option Rat) := none
  lon : Option (Option Rat) := none
  gps_accuracy_m : Option (Option Rat) := none
  category : Option String := none
  subcategory : Option String := none
  tags : Option (List String) := none
  notes : Option String := none
  photos : Option (List PhotoVal) := none
  light_working : Option String := none
  price_item : Option String := none
  price_mvr : Option String := none
  in_stock : Option String := none
  med_item : Option String := none
  med_availability : Option String := none
  down_mbps : Option String := none
  up_mbps : Option String := none
  ping_ms : Option String := none
  timestamp : Nat
  deriving Repr, DecidableEq

/-- A stored draft slot value: either a string that parses back to a draft
object, or content whose load attempt throws (not valid JSON, or JSON whose
timestamp access fails). -/
inductive DraftStored where
  | parsed : DraftObj → DraftStored
  | corrupt : DraftStored
  deriving Repr, DecidableEq

/-- App-level mutable state threaded through the submit flow: the form state,
the draft slot, the fallback queue, plus the two ambient supplies (fresh
identifiers for generateUUID, successive clock readings for the Date calls). -/
structure AppState where
  formData : FormState
  draftSlot : Option DraftStored
  queue : QueueState
  uuids : List String
  clock : List Nat

/-- Draw the next fresh identifier from the Math.random supply. -/
def drawUuid : List String → String × List String
  | [] => ("", [])
  | u :: us => (u, us)

/-- Draw the next clock reading. -/
def drawClock : List Nat → Nat × List Nat
  | [] => (0, [])
  | t :: ts => (t, ts)

/-- clearDraft from app.js: remove the draft slot and reset formData to the
eight-key default object. -/
def clearDraftApp (st : AppState) : AppState :=
  { st with draftSlot := none, formData := defaultFormData }

/-- How a submitForm run ended: validation stopped it, the endpoint confirmed
delivery, the catch path stored the entry in the fallback queue, or the catch
path failed to store it (unreachable while storage is modelled reliable). -/
inductive SubmitOutcome where
  | notSubmitted : SubmitOutcome
  | delivered : SubmitOutcome
  | fallbackSaved : SubmitOutcome
  | hardError : SubmitOutcome
  deriving Repr, DecidableEq

/-- Result of a submitForm run: the final app state, the user-visible outcome,
and the submission object the fetch actually carried (none when validation
stopped the run before encoding). -/
structure SubmitResult where
  state : AppState
  outcome : SubmitOutcome
  sent : Option (List (String × JVal))

/-- The catch block of submitForm in app.js: it calls prepareSubmissionData
again (a fresh new Date() reading, a fresh generateUUID draw, a fresh
Date.now() for the hash), hands that second record to tryFallbackStorage
(whose stored_at reads the clock once more), and on stored success clears the
draft and shows the success screen. -/
def submitFallbackPath (cfg : Config) (dom : DomSnapshot) (userAgent : String)
    (st : AppState) (sent : Option (List (String × JVal))) : SubmitResult :=
  let (t1, c1) := drawClock st.clock
  let (u, us) := drawUuid st.uuids
  let (t2, c2) := drawClock c1
  let rec2 := prepareSubmissionData cfg dom st.formData u t1 userAgent t2
  let (t3, c3) := drawClock c2
  let (q', stored) := tryFallbackStorage st.formData.photos rec2 t3 st.queue
  let st' : AppState := { st with queue := q', uuids := us, clock := c3 }
  if stored then
    { state := clearDraftApp st', outcome := SubmitOutcome.fallbackSaved, sent := sent }
  else
    { state := st', outcome := SubmitOutcome.hardError, sent := sent }

/-- submitForm from app.js. The try block encodes the record, attaches the
base64 photos and any rapid-entry data, and posts it; a non-ok status throws,
response.json() throws on a non-JSON body, and a parsed body with a falsy
success flag throws — every throw lands in the catch block, which re-encodes
and queues. The fetch response is an explicit input: none models the fetch
call itself throwing. -/
def submitForm (cfg : Config) (dom : DomSnapshot) (userAgent : String)
    (entryMode islandSelectValue : String)
    (response : Option HttpResponse) (st : AppState) : SubmitResult :=
  if !(validateForm entryMode islandSelectValue st.formData) then
    { state := st, outcome := SubmitOutcome.notSubmitted, sent := none }
  else
    let (t1, c1) := drawClock st.clock
    let (u1, us1) := drawUuid st.uuids
    let (t2, c2) := drawClock c1
    let rec0 := prepareSubmissionData cfg dom st.formData u1 t1 userAgent t2
    let photosJ : JVal := JVal.arr (st.formData.photos.map fun p =>
      JVal.obj [("mimeType", JVal.str (dataUrlMime (fileToBase64 p))),
                ("data", JVal.str (dataUrlBase64 (fileToBase64 p)))])
    let rec1 := aset "photos" photosJ rec0
    let rapid :=
      if st.formData.subcategory == "price_item" then getPriceBasketData dom.priceRows
      else if st.formData.subcategory == "pharmacy_stock" then getPharmacyStockData dom.pharmacyRows
      else ""
    let rec2 := if rapid != "" then aset "rapid_entry_data" (JVal.str rapid) rec1 else rec1
    let st1 : AppState := { st with clock := c2, uuids := us1 }
    match response with
    | none => submitFallbackPath cfg dom userAgent st1 (some rec2)
    | some r =>
      if !r.ok then
        submitFallbackPath cfg dom userAgent st1 (some rec2)
      else
        match r.body with
        | RespBody.nonJson => submitFallbackPath cfg dom userAgent st1 (some rec2)
        | RespBody.jsonBody success _ =>
          if success then
            { state := clearDraftApp st1, outcome := SubmitOutcome.delivered, sent := some rec2 }
          else
            submitFallbackPath cfg dom userAgent st1 (some rec2)

/-- The draft object saveDraft serializes: formData spread in full (so every
present field key is stored) plus the current timestamp; serialization husks
the File objects. -/
def draftOfState (fd : FormState) (nowMs : Nat) : DraftObj :=
  { lat := some fd.lat,
    lon := some fd.lon,
    gps_accuracy_m := some fd.gps_accuracy_m,
    category := some fd.category,
    subcategory := some fd.subcategory,
    tags := some fd.tags,
    notes := some fd.notes,
    photos := some (fd.photos.map fun _ => PhotoVal.husk),
    light_working := fd.light_working,
    price_item := fd.price_item,
    price_mvr := fd.price_mvr,
    in_stock := fd.in_stock,
    med_item := fd.med_item,
    med_availability := fd.med_availability,
    down_mbps := fd.down_mbps,
    up_mbps := fd.up_mbps,
    ping_ms := fd.ping_ms,
    timestamp := nowMs }

/-- saveDraft from app.js: overwrite the single draft slot with the serialized
state, whatever the slot held before. -/
def saveDraft (fd : FormState) (nowMs : Nat) : Option DraftStored :=
  some (DraftStored.parsed (draftOfState fd nowMs))

/-- Key-presence merge for a dynamic field: a key present in the draft (some)
overrides, an absent key (none) keeps the in-memory value. -/
def mergeOpt {α : Type} (dv fv : Option α) : Option α :=
  match dv with
  | some v => some v
  | none => fv

/-- The object spread of loadDraft, formData first and draft second: every key
present in the draft overrides, every absent key keeps the in-memory value,
and the draft's timestamp key is copied onto formData. -/
def mergeDraft (fd : FormState) (d : DraftObj) : FormState :=
  { lat := d.lat.getD fd.lat,
    lon := d.lon.getD fd.lon,
    gps_accuracy_m := d.gps_accuracy_m.getD fd.gps_accuracy_m,
    category := d.category.getD fd.category,
    subcategory := d.subcategory.getD fd.subcategory,
    tags := d.tags.getD fd.tags,
    notes := d.notes.getD fd.notes,
    photos := d.photos.getD fd.photos,
    light_working := mergeOpt d.light_working fd.light_working,
    price_item := mergeOpt d.price_item fd.price_item,
    price_mvr := mergeOpt d.price_mvr fd.price_mvr,
    in_stock := mergeOpt d.in_stock fd.in_stock,
    med_item := mergeOpt d.med_item fd.med_item,
    med_availability := mergeOpt d.med_availability fd.med_availability,
    down_mbps := mergeOpt d.down_mbps fd.down_mbps,
    up_mbps := mergeOpt d.up_mbps fd.up_mbps,
    ping_ms := mergeOpt d.ping_ms fd.ping_ms,
    timestampKey := some d.timestamp }

/-- The freshness window in milliseconds. The source compares the elapsed
hours as a float against 24; since both clock readings are integral
milliseconds and the quotient granularity of one millisecond over an hour is
far above double rounding error at 24, that float comparison is exactly the
integer comparison of the elapsed milliseconds against this constant. -/
def msPerDay : Nat := 86400000

/-- The observable result of a loadDraft call: the draft slot afterwards and
the in-memory formData afterwards. -/
structure DraftLoadResult where
  slot : Option DraftStored
  formData : FormState
  deriving Repr, DecidableEq

/-- loadDraft from app.js: an absent slot changes nothing; content whose parse
or timestamp arithmetic throws lands in the catch, which clears the draft; a
parsed draft is merged while strictly younger than the window and cleared
otherwise. Clearing also resets formData to the default object. -/
def loadDraft (nowMs : Nat) (slot : Option DraftStored) (fd : FormState) : DraftLoadResult :=
  match slot with
  | none => { slot := none, formData := fd }
  | some DraftStored.corrupt => { slot := none, formData := defaultFormData }
  | some (DraftStored.parsed d) =>
    if nowMs - d.timestamp < msPerDay then
      { slot := some (DraftStored.parsed d), formData := mergeDraft fd d }
    else
      { slot := none, formData := defaultFormData }

/-- The canonical-schema projection of a FormState: the fields that are both
part of the draft serialization and of the remote canonical column set.
Photos are attachments, not canonical schema fields (and their File objects
do not survive JSON serialization), so they are outside this projection. -/
structure CanonicalFields where
  lat : Option Rat
  lon : Option Rat
  gps_accuracy_m : Option Rat
  category : String
  subcategory : String
  tags : List String
  notes : String
  light_working : Option String
  price_item : Option String
  price_mvr : Option String
  in_stock : Option String
  med_item : Option String
  med_availability : Option String
  down_mbps : Option String
  up_mbps : Option String
  ping_ms : Option String
  deriving Repr, DecidableEq

/-- Project a FormState onto its canonical-schema fields. -/
def canonicalOf (fd : FormState) : CanonicalFields :=
  { lat := fd.lat, lon := fd.lon, gps_accuracy_m := fd.gps_accuracy_m,
    category := fd.category, subcategory := fd.subcategory, tags := fd.tags,
    notes := fd.notes, light_working := fd.light_working,
    price_item := fd.price_item, price_mvr := fd.price_mvr,
    in_stock := fd.in_stock, med_item := fd.med_item,
    med_availability := fd.med_availability, down_mbps := fd.down_mbps,
    up_mbps := fd.up_mbps, ping_ms := fd.ping_ms }

/-- The submission_id carried by the payload persisted under the given pending
identifier, when that payload is present and loadable. -/
def storedPayloadId (q : QueueState) (id : String) : Option String :=
  match alookup (fallbackKeyOf id) q.payloads with
  | some (PayloadSlot.entry d) => some (submissionIdOf d)
  | _ => none

/-- The submitted_at_iso field of the payload persisted under the given
pending identifier. -/
def storedPayloadTimestamp (q : QueueState) (id : String) : Option JVal :=
  match alookup (fallbackKeyOf id) q.payloads with
  | some (PayloadSlot.entry d) => alookup "submitted_at_iso" d
  | _ => none

/- Concrete fixtures used to evaluate the embedded code. -/

/-- A minimal loadable submission payload carrying only its identifier. -/
def payloadOf (id : String) : List (String × JVal) :=
  [("submission_id", JVal.str id)]

/-- Transport stub that succeeds for every entry. -/
def submitAlways : List (String × JVal) → Bool := fun _ => true

/-- Transport stub that fails exactly for the entry whose identifier is B. -/
def submitFailB : List (String × JVal) → Bool := fun d => submissionIdOf d != "B"

/-- A fallback queue holding pending entries A and B, each with a loadable
persisted payload. -/
def qAB : QueueState :=
  { pendingIndex := ["A", "B"],
    payloads := [(fallbackKeyOf "A", PayloadSlot.entry (payloadOf "A")),
                 (fallbackKeyOf "B", PayloadSlot.entry (payloadOf "B"))] }

/-- A fallback queue holding pending entries A, B and C, each with a loadable
persisted payload. -/
def qABC : QueueState :=
  { pendingIndex := ["A", "B", "C"],
    payloads := [(fallbackKeyOf "A", PayloadSlot.entry (payloadOf "A")),
                 (fallbackKeyOf "B", PayloadSlot.entry (payloadOf "B")),
                 (fallbackKeyOf "C", PayloadSlot.entry (payloadOf "C"))] }

/-- The queue obtained from an empty store by enqueueing record A and then
record B through tryFallbackStorage, every storage write succeeding. -/
def qEnq2 : QueueState :=
  (tryFallbackStorage [] (payloadOf "B") 20 ((tryFallbackStorage [] (payloadOf "A") 10 {}).1)).1

/-- Configuration fixture. -/
def cfg0 : Config := { app_version := "1.0", language := "en" }

/-- DOM fixture with none of the rapid-entry containers rendered. -/
def dom0 : DomSnapshot := {}

/-- A photo file fixture with a well-formed data URL. -/
def photo0 : PhotoFile :=
  { name := "p.jpg", size := 3, ptype := "image/jpeg", dataUrl := "data:image/jpeg;base64,QUJD" }

/-- A validated streetlight form state: map location set, category and
subcategory streetlight, tag urgent, the required light_working answer no,
one attached photo. -/
def fdStreet : FormState :=
  { defaultFormData with
    lat := some (mkRat 41755 10000),
    lon := some (mkRat 735093 10000),
    gps_accuracy_m := some 12,
    category := "streetlight",
    subcategory := "streetlight",
    tags := ["urgent"],
    photos := [PhotoVal.file photo0],
    light_working := some "no" }

/-- App state fixture around fdStreet, with two fresh identifiers and five
clock readings available. -/
def st0 : AppState :=
  { formData := fdStreet, draftSlot := none, queue := {},
    uuids := ["u1", "u2"], clock := [1000, 1001, 1002, 1003, 1004] }

/-- An HTTP 200 response whose body is not JSON. -/
def resp200NonJson : HttpResponse := { ok := true, body := RespBody.nonJson }

/-- The submitForm run of app.js against fdStreet when the endpoint answers
HTTP 200 with a non-JSON body. -/
def runC4 : SubmitResult := submitForm cfg0 dom0 "UA" "map" "" (some resp200NonJson) st0

/-- The submitForm run of app.js against fdStreet when the fetch call itself
throws (network failure). -/
def runC6 : SubmitResult := submitForm cfg0 dom0 "UA" "map" "" none st0

/-- The record the app.js encoder produces for the validated streetlight form
state. -/
def encStreet : List (String × JVal) :=
  prepareSubmissionData cfg0 dom0 fdStreet "u1" 1000 "UA" 1001

/-- A draft object fixture: category x saved at clock 0, every other key
absent. -/
def d0 : DraftObj := { category := some "x", timestamp := 0 }

/- General helper lemmas about the association-list primitives. -/

theorem alookup_aset {α : Type} (k : String) (v : α) (l : List (String × α)) :
    alookup k (aset k v l) = some v := by
  induction l with
  | nil => simp [aset, alookup]
  | cons hd tl ih =>
    by_cases h : hd.1 == k
    · simp [aset, alookup, h]
    · simp [aset, alookup, h, ih]

theorem alookup_aset_ne {α : Type} {k k' : String} (v : α) (l : List (String × α))
    (h : k' ≠ k) : alookup k' (aset k v l) = alookup k' l := by
  have h' : ¬(k = k') := fun hx => h hx.symm
  induction l with
  | nil => simp [aset, alookup, beq_iff_eq, h']
  | cons hd tl ih =>
    by_cases hh : hd.1 == k
    · have hk : hd.1 = k := eq_of_beq hh
      simp [aset, alookup, hh, beq_iff_eq, h', hk]
    · simp [aset, alookup, hh, ih]

/-- Merging a dynamic-field key onto a state in which the key is absent keeps
exactly the draft's key state. -/
theorem mergeOpt_none {α : Type} (dv : Option α) : mergeOpt dv none = dv := by
  cases dv <;> rfl

/-- The identifier the encoder stamps is the first field of the record, so it
is read back regardless of the rest of the record. -/
theorem submissionIdOf_prepare (cfg : Config) (dom : DomSnapshot) (fd : FormState)
    (u : String) (t : Nat) (ua : String) (t2 : Nat) :
    submissionIdOf (prepareSubmissionData cfg dom fd u t ua t2) = u := rfl

theorem submissionIdOf_aset {k : String} (v : JVal) (l : List (String × JVal))
    (h : k ≠ "submission_id") : submissionIdOf (aset k v l) = submissionIdOf l := by
  unfold submissionIdOf
  rw [alookup_aset_ne v l (fun hh => h hh.symm)]

/-- C1: the claim states that after one sweep over a pending index of distinct
identifiers, with a transport that succeeds for every entry, the pending index
is empty and each payload and index reference is removed exactly once. The
code violates this for two entries: each success stores the start-of-sweep
snapshot filtered by only the current identifier, so the final write
resurrects identifier A. After sweeping the queue with index A, B and both
submits succeeding, both payloads are gone but listPending is A, not empty. -/
theorem sweep_allSuccess_leaves_resurrected_index :
    (retryPendingSubmissions submitAlways qAB).pendingIndex = ["A"] ∧
    alookup (fallbackKeyOf "A") (retryPendingSubmissions submitAlways qAB).payloads = none ∧
    alookup (fallbackKeyOf "B") (retryPendingSubmissions submitAlways qAB).payloads = none :=
  ⟨rfl, rfl, rfl⟩

/-- C2: the claim states that sweeping pending entries A, B, C with a
transport failing only for B leaves the pending index exactly B. The code
instead finishes with index A, B: the success of C overwrites the index with
the start-of-sweep snapshot minus C alone, resurrecting A. Payloads of A and
C are removed and B keeps both payload and index entry; the sweep completes
without throwing, but the index is wrong. -/
theorem sweep_partialFailure_leaves_wrong_index :
    (retryPendingSubmissions submitFailB qABC).pendingIndex = ["A", "B"] ∧
    alookup (fallbackKeyOf "A") (retryPendingSubmissions submitFailB qABC).payloads = none ∧
    alookup (fallbackKeyOf "B") (retryPendingSubmissions submitFailB qABC).payloads
      = some (PayloadSlot.entry (payloadOf "B")) ∧
    alookup (fallbackKeyOf "C") (retryPendingSubmissions submitFailB qABC).payloads = none :=
  ⟨rfl, rfl, rfl, rfl⟩

/-- C3: the claim states the index-payload invariant holds after any sequence
of successful enqueues and sweeps. Enqueueing A then B and sweeping once with
an all-success transport leaves identifier A in the pending index while its
payload has been deleted, so the invariant is violated by successful
operations alone. -/
theorem enqueue_sweep_breaks_index_payload_invariant :
    (retryPendingSubmissions submitAlways qEnq2).pendingIndex = ["A"] ∧
    alookup (fallbackKeyOf "A") (retryPendingSubmissions submitAlways qEnq2).payloads = none :=
  ⟨rfl, rfl⟩

/-- C9: an identifier whose persisted payload is missing (the storage read
yields null, which parses to a falsy value) or fails to load (the parse
throws into the per-entry catch) is skipped without touching the store, and
the sweep proceeds with the remaining identifiers; sweepLoop is the loop body
of retryPendingSubmissions. -/
theorem sweepLoop_skips_unloadable_entry
    (submit : List (String × JVal) → Bool) (pending rest : List String)
    (q : QueueState) (id : String)
    (h : alookup (fallbackKeyOf id) q.payloads = none ∨
         alookup (fallbackKeyOf id) q.payloads = some PayloadSlot.garbage) :
    sweepLoop submit pending (id :: rest) q = sweepLoop submit pending rest q := by
  rcases h with h | h <;> simp [sweepLoop, h]

/-- C9 witness: a sweep whose only pending identifier has no persisted payload
reduces to the sweep of the empty remainder. -/
theorem sweepLoop_skips_unloadable_entry_witness :
    sweepLoop submitAlways ["X"] ["X"] { pendingIndex := ["X"], payloads := [] } =
    sweepLoop submitAlways ["X"] [] { pendingIndex := ["X"], payloads := [] } :=
  sweepLoop_skips_unloadable_entry submitAlways ["X"] []
    { pendingIndex := ["X"], payloads := [] } "X" (Or.inl rfl)

/-- C10: when the draft slot holds content that does not parse, loadDraft
catches the exception, clears the slot, and resets the in-memory form state
to the default empty values, for every clock reading and prior state. -/
theorem loadDraft_corrupt_clears (nowMs : Nat) (fd : FormState) :
    loadDraft nowMs (some DraftStored.corrupt) fd =
      { slot := none, formData := defaultFormData } := rfl

/-- C7 counterexample: at exactly 24 hours the claim's clearing premise
(now minus the save timestamp exceeds 24 hours) is false, so the claim
predicts the stored fields merged onto the state; the code instead treats the
draft as stale (the source keeps a draft only while strictly younger than 24
hours), clears the slot and resets the form state, which differs from the
merged state the claim predicts. -/
theorem loadDraft_clears_at_exact_24h :
    ¬(86400000 - d0.timestamp > msPerDay) ∧
    loadDraft 86400000 (some (DraftStored.parsed d0)) defaultFormData =
      { slot := none, formData := defaultFormData } ∧
    mergeDraft defaultFormData d0 ≠ defaultFormData :=
  ⟨by decide, rfl, by decide⟩

/-- C7 amended: load clears the slot and resets the state when now minus the
draft timestamp is at least 24 hours, and otherwise keeps the slot and merges
the stored fields onto the in-memory state (the default state at the only
call site); in particular a draft is present 23 hours after saving and absent
25 hours after. Staleness is only ever computed inside load. -/
theorem loadDraft_staleness_cutoff (d : DraftObj) (fd : FormState) (nowMs : Nat) :
    (nowMs - d.timestamp < msPerDay →
      loadDraft nowMs (some (DraftStored.parsed d)) fd =
        { slot := some (DraftStored.parsed d), formData := mergeDraft fd d }) ∧
    (msPerDay ≤ nowMs - d.timestamp →
      loadDraft nowMs (some (DraftStored.parsed d)) fd =
        { slot := none, formData := defaultFormData }) := by
  constructor
  · intro h
    simp [loadDraft, h]
  · intro h
    simp [loadDraft, Nat.not_lt.mpr h]

/-- C7 witness: the draft saved at clock 0 is merged when loaded 23 hours
later and cleared when loaded 25 hours later. -/
theorem loadDraft_staleness_cutoff_witness :
    loadDraft 82800000 (some (DraftStored.parsed d0)) defaultFormData =
      { slot := some (DraftStored.parsed d0), formData := mergeDraft defaultFormData d0 } ∧
    loadDraft 90000000 (some (DraftStored.parsed d0)) defaultFormData =
      { slot := none, formData := defaultFormData } :=
  ⟨(loadDraft_staleness_cutoff d0 defaultFormData 82800000).1 (by decide),
   (loadDraft_staleness_cutoff d0 defaultFormData 90000000).2 (by decide)⟩

/-- C8: loading immediately after saving reproduces every canonical-schema
field of the saved state: the saved draft carries every key of the state, so
the merge overrides every canonical field of the freshly-initialized default
state with the saved value (photos are attachments, outside the canonical
schema, and their File objects do not survive serialization). -/
theorem draft_roundtrip_reproduces_canonical_fields (S : FormState) (t : Nat) :
    canonicalOf ((loadDraft t (saveDraft S t) defaultFormData).formData) = canonicalOf S := by
  have hlt : t - t < msPerDay := by
    simp [Nat.sub_self, msPerDay]
  simp only [loadDraft, saveDraft, draftOfState]
  rw [if_pos hlt]
  simp [mergeDraft, draftOfState, canonicalOf, mergeOpt_none, defaultFormData]

/-- C5: the claim states the encoder emits every canonical field key, unset
dynamic fields as empty strings and set ones copied, so that a validated
streetlight state with light_working no yields a record carrying
light_working no. The validated streetlight state passes validateForm, yet
the encoder output has no light_working key at all: the record is exactly the
thirteen fixed keys of the object literal, and the backend row builder
consequently writes the empty string into the light_working column (position
27) even though the user answered no. -/
theorem prepare_drops_validated_light_working :
    validateForm "map" "" fdStreet = true ∧
    fdStreet.light_working = some "no" ∧
    alookup "light_working" encStreet = none ∧
    encStreet.map Prod.fst =
      ["submission_id", "submitted_at_iso", "app_version", "language", "lat", "lon",
       "gps_accuracy_m", "category", "subcategory", "tags", "notes",
       "consent_confirmed", "ip_hash"] ∧
    (prepareRowData encStreet).getD 27 (JVal.str "sentinel") = JVal.str "" :=
  ⟨by decide, rfl, rfl, rfl, rfl⟩

/-- C4 counterexample: the claim states that an HTTP 200 response with a
non-JSON body is treated as success with nothing added to the fallback queue.
In app.js the unconditional response.json() call throws on such a body, so
the run lands in the catch block: the draft is cleared and the terminal
success state shown, but a freshly encoded record has been enqueued — the
pending index gains the second supplied identifier instead of staying empty. -/
theorem submit_nonJson200_enqueues :
    runC4.outcome = SubmitOutcome.fallbackSaved ∧
    runC4.state.queue.pendingIndex = ["u2"] ∧
    runC4.state.draftSlot = none ∧
    runC4.state.formData = defaultFormData :=
  ⟨rfl, rfl, rfl, rfl⟩

/-- C4 amended: for every validated state, an ok response with a non-JSON
body ends in the fallback-saved outcome: the draft slot is cleared, the form
state is reset, and the pending index gains exactly one entry, the identifier
of the freshly re-encoded record (the second fresh identifier drawn during
the run). -/
theorem submit_nonJson200_success_via_fallback
    (cfg : Config) (dom : DomSnapshot) (ua em isl : String) (st : AppState)
    (r : HttpResponse) (u1 u2 : String) (us : List String)
    (hv : validateForm em isl st.formData = true)
    (hok : r.ok = true) (hb : r.body = RespBody.nonJson)
    (hu : st.uuids = u1 :: u2 :: us) :
    (submitForm cfg dom ua em isl (some r) st).outcome = SubmitOutcome.fallbackSaved ∧
    (submitForm cfg dom ua em isl (some r) st).state.draftSlot = none ∧
    (submitForm cfg dom ua em isl (some r) st).state.formData = defaultFormData ∧
    (submitForm cfg dom ua em isl (some r) st).state.queue.pendingIndex =
      st.queue.pendingIndex ++ [u2] := by
  obtain ⟨rok, rbody⟩ := r
  simp only at hok hb
  subst hok
  subst hb
  simp [submitForm, hv, hu, submitFallbackPath, drawUuid, drawClock,
    tryFallbackStorage, clearDraftApp, submissionIdOf_prepare]

/-- C4 witness: the amended statement applied to the concrete streetlight
fixture and the concrete 200 non-JSON response. -/
theorem submit_nonJson200_success_via_fallback_witness :
    (submitForm cfg0 dom0 "UA" "map" "" (some resp200NonJson) st0).outcome
        = SubmitOutcome.fallbackSaved ∧
    (submitForm cfg0 dom0 "UA" "map" "" (some resp200NonJson) st0).state.draftSlot = none ∧
    (submitForm cfg0 dom0 "UA" "map" "" (some resp200NonJson) st0).state.formData
        = defaultFormData ∧
    (submitForm cfg0 dom0 "UA" "map" "" (some resp200NonJson) st0).state.queue.pendingIndex
        = st0.queue.pendingIndex ++ ["u2"] :=
  submit_nonJson200_success_via_fallback cfg0 dom0 "UA" "map" "" st0 resp200NonJson
    "u1" "u2" [] (by decide) rfl rfl rfl

/-- C6 counterexample: the claim states the record persisted by the fallback
path carries the same submission identifier and timestamp as the record whose
delivery failed. In app.js the catch block calls prepareSubmissionData again,
so on a network failure the posted record carries the first supplied
identifier and the first clock reading while the persisted payload carries
the second identifier and a later clock reading — provably different values. -/
theorem fallback_persists_fresh_identifier :
    (runC6.sent.map submissionIdOf) = some "u1" ∧
    runC6.state.queue.pendingIndex = ["u2"] ∧
    storedPayloadId runC6.state.queue "u2" = some "u2" ∧
    (runC6.sent.bind (alookup "submitted_at_iso")) = some (JVal.str (toISOString 1000)) ∧
    storedPayloadTimestamp runC6.state.queue "u2" = some (JVal.str (toISOString 1002)) ∧
    ("u1" : String) ≠ "u2" ∧
    toISOString 1000 ≠ toISOString 1002 :=
  ⟨rfl, rfl, rfl, rfl, rfl, by decide, by decide⟩

/-- C6 amended: when the transport call throws, the fallback path re-encodes
the submission: the posted record carries the first fresh identifier drawn,
while the payload persisted into the queue (and the identifier appended to
the pending index) carries the second, freshly drawn one, with a freshly read
timestamp; the two coincide only if the identifier supply repeats itself. -/
theorem fallback_reencodes_with_fresh_identifier
    (cfg : Config) (dom : DomSnapshot) (ua em isl : String) (st : AppState)
    (u1 u2 : String) (us : List String)
    (hv : validateForm em isl st.formData = true)
    (hu : st.uuids = u1 :: u2 :: us) :
    ((submitForm cfg dom ua em isl none st).sent.map submissionIdOf) = some u1 ∧
    storedPayloadId (submitForm cfg dom ua em isl none st).state.queue u2 = some u2 ∧
    (submitForm cfg dom ua em isl none st).state.queue.pendingIndex =
      st.queue.pendingIndex ++ [u2] := by
  refine ⟨?_, ?_, ?_⟩ <;>
    simp [submitForm, hv, hu, submitFallbackPath, drawUuid, drawClock,
      tryFallbackStorage, clearDraftApp, storedPayloadId, alookup_aset,
      submissionIdOf_prepare, submissionIdOf_aset, apply_ite submissionIdOf]

/-- C6 witness: the amended statement applied to the concrete streetlight
fixture with supply u1, u2. -/
theorem fallback_reencodes_with_fresh_identifier_witness :
    ((submitForm cfg0 dom0 "UA" "map" "" none st0).sent.map submissionIdOf) = some "u1" ∧
    storedPayloadId (submitForm cfg0 dom0 "UA" "map" "" none st0).state.queue "u2"
        = some "u2" ∧
    (submitForm cfg0 dom0 "UA" "map" "" none st0).state.queue.pendingIndex =
      st0.queue.pendingIndex ++ ["u2"] :=
  fallback_reencodes_with_fresh_identifier cfg0 dom0 "UA" "map" "" st0
    "u1" "u2" [] (by decide) rfl

end IslandMapping
